import Mathlib

/-
  Formal model of flashlight/fl/contrib/modules/VisionTransformer.cpp
  (one Transformer encoder block: layer-normalized multi-head self-attention
  followed by a layer-normalized MLP, each wrapped in a residual connection
  with stochastic depth).

  Embedding conventions:
  * float values are embedded as real numbers; tensors are total functions
    on Fin-indexed coordinates, following ArrayFire's column-major layout
    where the linear element order matters (af::array construction and
    af::moddims);
  * randomness (af::randu draws, dropout masks) is passed explicitly as
    function arguments;
  * C++ exceptions are modelled with Except String;
  * checkpoint files are modelled as Option (List Real): none is a file
    that does not exist (readfloats returns an empty vector for it).
-/

noncomputable section

namespace VT

open Real

/-- Tensor with three axes, sized c (dim 0), t (dim 1), b (dim 2), holding reals. -/
def Ten3 (c t b : ℕ) : Type := Fin c → Fin t → Fin b → ℝ

/-- Elementwise sum of two 3-axis tensors (the + on fl Variables). -/
def tAdd {c t b : ℕ} (x y : Ten3 c t b) : Ten3 c t b :=
  fun i j k => x i j k + y i j k

/-- Modelled from the spec: the Linear sub-module contract
"(weight, bias) -> output = weight * input + bias", applied along axis 0
of a 3-axis tensor.  The Linear module itself lives outside src/. -/
def linearF {i o t b : ℕ} (W : Fin o → Fin i → ℝ) (bias : Fin o → ℝ)
    (x : Ten3 i t b) : Ten3 o t b :=
  fun r s u => (∑ j, W r j * x j s u) + bias r

/-- Modelled from the spec: the LayerNorm sub-module contract, normalizing
over the feature axis (axis 0) with the numerical floor 1e-6 added to the
variance, then applying the learned scale and shift.  The LayerNorm module
itself lives outside src/. -/
def layerNorm {c t b : ℕ} (g sh : Fin c → ℝ) (x : Ten3 c t b) : Ten3 c t b :=
  fun i j k =>
    let mu : ℝ := (∑ q, x q j k) / c
    let vr : ℝ := (∑ q, (x q j k - mu) ^ 2) / c
    g i * ((x i j k - mu) / Real.sqrt (vr + 1e-6)) + sh i

/-- Modelled from the spec: the tensor-runtime dropout primitive.  It is a
no-op at probability 0 ("Dropout is a no-op in evaluation mode (probability
forced to 0)"); at positive p it keeps an entry when its uniform draw
exceeds p, rescaling by 1/(1-p). -/
def dropout {c t b : ℕ} (p : ℝ) (m : Ten3 c t b) (x : Ten3 c t b) : Ten3 c t b :=
  if 0 < p then (fun i j k => if p < m i j k then x i j k / (1 - p) else 0) else x

/-- Transpose of the first two axes of a 3-axis tensor (fl transpose). -/
def transpose12 {a b c : ℕ} (x : Ten3 a b c) : Ten3 b a c := fun i j k => x j i k

/-- Column-major reshape of a 3-axis tensor (af::moddims): the element at
column-major linear position n of the output is the element at the same
linear position of the input. -/
def moddims3 {a b c a' b' c' : ℕ} (h : a * b * c = a' * b' * c')
    (x : Ten3 a b c) : Ten3 a' b' c' :=
  fun i j k =>
    have hn : i.val + a' * (j.val + b' * k.val) < a * b * c := by
      rw [h]
      have hjk : j.val + b' * k.val < b' * c' := by
        have h2 : b' * (k.val + 1) ≤ b' * c' := Nat.mul_le_mul_left b' k.isLt
        have he : b' * (k.val + 1) = b' * k.val + b' := by ring
        have hj := j.isLt
        omega
      have h4 : a' * (j.val + b' * k.val + 1) ≤ a' * (b' * c') :=
        Nat.mul_le_mul_left a' hjk
      have he2 : a' * (j.val + b' * k.val + 1) = a' * (j.val + b' * k.val) + a' := by
        ring
      have he3 : a' * (b' * c') = a' * b' * c' := (mul_assoc a' b' c').symm
      have hi := i.isLt
      omega
    have ha : 0 < a := by
      rcases Nat.eq_zero_or_pos a with h0 | h0
      · rw [h0] at hn; simp at hn
      · exact h0
    have hb : 0 < b := by
      rcases Nat.eq_zero_or_pos b with h0 | h0
      · rw [h0] at hn; simp at hn
      · exact h0
    let n : ℕ := i.val + a' * (j.val + b' * k.val)
    x ⟨n % a, Nat.mod_lt _ ha⟩
      ⟨n / a % b, Nat.mod_lt _ hb⟩
      ⟨n / (a * b), by
        have hab : 0 < a * b := Nat.mul_pos ha hb
        exact (Nat.div_lt_iff_lt_mul hab).2 (by
          calc n < a * b * c := hn
            _ = c * (a * b) := by ring)⟩

/-- Batched matrix multiply with the second operand transposed
(af matmulNT over the leading two axes, batched over axis 2). -/
def matmulNT {t t' d g : ℕ} (q : Ten3 t d g) (k : Ten3 t' d g) : Ten3 t t' g :=
  fun i j s => ∑ r, q i r s * k j r s

/-- Batched matrix multiply (af matmul over the leading two axes,
batched over axis 2). -/
def matmul3 {t t' d g : ℕ} (a : Ten3 t t' g) (v : Ten3 t' d g) : Ten3 t d g :=
  fun i r s => ∑ j, a i j s * v j r s

/-- Modelled from the spec: the tensor-runtime softmax along axis index 1 of
a 3-axis tensor ("Apply softmax along the key axis (axis index 1 of the
3-axis score tensor)").  The softmax primitive itself lives outside src/. -/
def softmaxAxis1 {t t' g : ℕ} (s : Ten3 t t' g) : Ten3 t t' g :=
  fun i j k => Real.exp (s i j k) / ∑ j', Real.exp (s i j' k)

/-- The VisionTransformer block's runtime state: the parameter tensors of the
six Linear sub-modules (weight and bias), the scale and shift vectors of the
two LayerNorm sub-modules, the two probability hyperparameters, and the
train/eval flag inherited from Module.  Dimensions: C = modelDim_,
hd = headDim_, nh = nHeads_, mlpD = mlpDim_. -/
structure VitBlock (C hd nh mlpD : ℕ) where
  w1W : Fin mlpD → Fin C → ℝ
  w1B : Fin mlpD → ℝ
  w2W : Fin C → Fin mlpD → ℝ
  w2B : Fin C → ℝ
  wqW : Fin (hd * nh) → Fin C → ℝ
  wqB : Fin (hd * nh) → ℝ
  wkW : Fin (hd * nh) → Fin C → ℝ
  wkB : Fin (hd * nh) → ℝ
  wvW : Fin (hd * nh) → Fin C → ℝ
  wvB : Fin (hd * nh) → ℝ
  wfW : Fin C → Fin (hd * nh) → ℝ
  wfB : Fin C → ℝ
  n1W : Fin C → ℝ
  n1B : Fin C → ℝ
  n2W : Fin C → ℝ
  n2B : Fin C → ℝ
  pDropout : ℝ
  pLayerdrop : ℝ
  train : Bool

/-- Source constant geluConst1 = sqrt(2 / pi), with pi = acos(-1). -/
def geluConst1 : ℝ := Real.sqrt (2 / Real.pi)

/-- Source constant geluConst2 = 0.044715. -/
def geluConst2 : ℝ := 0.044715

/-- VisionTransformer::gelu, translated statement by statement:
res = input + geluConst2 * pow(input, 3);
res = 1 + tanh(geluConst1 * res);
res = 0.5 * input * res  (all operations elementwise). -/
def gelu {c t b : ℕ} (x : Ten3 c t b) : Ten3 c t b :=
  fun i j k =>
    let r1 : ℝ := x i j k + geluConst2 * (x i j k) ^ 3
    let r2 : ℝ := 1 + Real.tanh (geluConst1 * r1)
    0.5 * x i j k * r2

/-- VisionTransformer::mlp.  pDropout = train_ ? pDropout_ : 0.0; then
w1, gelu, dropout, w2, dropout.  m1 and m2 are the uniform draws consumed
by the two dropout applications. -/
def mlp {C hd nh mlpD : ℕ} (blk : VitBlock C hd nh mlpD) {t b : ℕ}
    (m1 : Ten3 mlpD t b) (m2 : Ten3 C t b) (x : Ten3 C t b) : Ten3 C t b :=
  let p : ℝ := if blk.train then blk.pDropout else 0
  dropout p m2 (linearF blk.w2W blk.w2B (dropout p m1 (gelu (linearF blk.w1W blk.w1B x))))

/-- The query tensor of selfAttention after projection, transpose and
moddims(-1, headDim_, nHeads_ * B): shape (T, hd, nh*B). -/
def saQ {C hd nh mlpD : ℕ} (blk : VitBlock C hd nh mlpD) {T B : ℕ}
    (x : Ten3 C T B) : Ten3 T hd (nh * B) :=
  moddims3 (by ring) (transpose12 (linearF blk.wqW blk.wqB x))

/-- The key tensor of selfAttention after projection, transpose and moddims. -/
def saK {C hd nh mlpD : ℕ} (blk : VitBlock C hd nh mlpD) {T B : ℕ}
    (x : Ten3 C T B) : Ten3 T hd (nh * B) :=
  moddims3 (by ring) (transpose12 (linearF blk.wkW blk.wkB x))

/-- The value tensor of selfAttention after projection, transpose and moddims. -/
def saV {C hd nh mlpD : ℕ} (blk : VitBlock C hd nh mlpD) {T B : ℕ}
    (x : Ten3 C T B) : Ten3 T hd (nh * B) :=
  moddims3 (by ring) (transpose12 (linearF blk.wvW blk.wvB x))

/-- The attention score tensor: q is scaled by 1/sqrt(headDim_) and multiplied
against k transposed (matmulNT), giving shape (T, T, nh*B). -/
def saScores {C hd nh mlpD : ℕ} (blk : VitBlock C hd nh mlpD) {T B : ℕ}
    (x : Ten3 C T B) : Ten3 T T (nh * B) :=
  matmulNT (fun i d g => saQ blk x i d g / Real.sqrt hd) (saK blk x)

/-- The attention weights: softmax(scores, 1), softmax along axis index 1. -/
def attnWeights {C hd nh mlpD : ℕ} (blk : VitBlock C hd nh mlpD) {T B : ℕ}
    (x : Ten3 C T B) : Ten3 T T (nh * B) :=
  softmaxAxis1 (saScores blk x)

/-- The self-attention result before the final dropout: attn times v,
moddims back to (T, hd*nh, B), transpose, and the output projection wf.
The attention-weight dropout of the original design is commented out in the
source and hence absent here. -/
def saProjected {C hd nh mlpD : ℕ} (blk : VitBlock C hd nh mlpD) {T B : ℕ}
    (x : Ten3 C T B) : Ten3 C T B :=
  linearF blk.wfW blk.wfB
    (transpose12 (moddims3 (by ring) (matmul3 (attnWeights blk x) (saV blk x))))

/-- VisionTransformer::selfAttention.  pDrop = train_ ? pDropout_ : 0.0;
the single dropout application sits after the output projection.  m is the
uniform draw consumed by that dropout. -/
def selfAttention {C hd nh mlpD : ℕ} (blk : VitBlock C hd nh mlpD) {T B : ℕ}
    (m : Ten3 C T B) (x : Ten3 C T B) : Ten3 C T B :=
  let pDrop : ℝ := if blk.train then blk.pDropout else 0
  dropout pDrop m (saProjected blk x)

/-- VisionTransformer::dropPath.  In eval mode the input is returned
unchanged.  In train mode a per-batch-element keep mask is drawn
(keepMask = randu(1,1,B) > pLayerdrop_, as 0/1 floats), the empirical keep
ratio mean(keepMask) is computed, the mask is divided by that ratio, tiled
over channel and sequence axes and multiplied with the input.  u is the
uniform draw behind af::randu. -/
def dropPath {c t b : ℕ} (train : Bool) (p : ℝ) (u : Fin b → ℝ)
    (x : Ten3 c t b) : Ten3 c t b :=
  if train = false then x
  else
    let keepMask : Fin b → ℝ := fun q => if p < u q then 1 else 0
    let keepRatio : ℝ := (∑ q, keepMask q) / b
    fun i j k => x i j k * (keepMask k / keepRatio)

/-- The fresh random draws consumed by one forward call: one per-batch
uniform vector for each of the two dropPath calls, and one uniform mask
for each of the three dropout applications (one in selfAttention, two in
mlp). -/
structure VitRand (C mlpD T B : ℕ) where
  dp1 : Fin B → ℝ
  dp2 : Fin B → ℝ
  sa : Ten3 C T B
  m1 : Ten3 mlpD T B
  m2 : Ten3 C T B

/-- VisionTransformer::forward: throws unless the input collection has
exactly one tensor, then
output = x + dropPath(selfAttention(norm1(x)));
output = output + dropPath(mlp(norm2(output)));
and returns {output}. -/
def vitForward {C hd nh mlpD : ℕ} (blk : VitBlock C hd nh mlpD) {T B : ℕ}
    (r : VitRand C mlpD T B) (inputs : List (Ten3 C T B)) :
    Except String (List (Ten3 C T B)) :=
  if inputs.length ≠ 1 then
    Except.error "VisionTransformer forward, >1 inputs"
  else
    let x := inputs.headD (fun _ _ _ => 0)
    let o1 := tAdd x (dropPath blk.train blk.pLayerdrop r.dp1
      (selfAttention blk r.sa (layerNorm blk.n1W blk.n1B x)))
    let o2 := tAdd o1 (dropPath blk.train blk.pLayerdrop r.dp2
      (mlp blk r.m1 r.m2 (layerNorm blk.n2W blk.n2B o1)))
    Except.ok [o2]

/-- Shape-level view of one Linear sub-module as the randomly-initialized
constructor builds it: the weight tensor's dimensions as ArrayFire sees them
(wRows, wCols), its entries, the bias length and the bias entries.  Shapes
are kept as data because the C++ Linear accepts arbitrary arrays; nothing
checks them at construction time. -/
structure RawLinear where
  wRows : ℕ
  wCols : ℕ
  wEnt : ℕ → ℕ → ℝ
  bLen : ℕ
  bEnt : ℕ → ℝ

/-- The six Linear sub-modules as built by the randomly-initialized
constructor. -/
structure RawVit where
  w1 : RawLinear
  w2 : RawLinear
  wq : RawLinear
  wk : RawLinear
  wv : RawLinear
  wf : RawLinear

/-- VisionTransformer::initLinear(inDim, outDim) =
truncNormal(af::dim4(outDim, inDim), 0.02): a weight array with outDim rows
and inDim columns whose entries come from the truncated-normal sampler. -/
def initLinear (tn : ℕ → ℕ → ℝ) (inDim outDim : ℕ) : RawLinear :=
  { wRows := outDim, wCols := inDim, wEnt := tn, bLen := 0, bEnt := fun _ => 0 }

/-- The member-initializer list of
VisionTransformer::VisionTransformer(int32_t modelDim, ...), lines 58-78:
each Linear is built from initLinear plus an fl::constant(0., len, 1) bias.
tn idx supplies the truncated-normal entries of the idx-th initLinear call.
w1: initLinear(modelDim, mlpDim), bias constant(0., mlpDim, 1);
w2: initLinear(mlpDim, modelDim), bias constant(0., modelDim, 1);
wq, wk, wv: initLinear(modelDim, headDim * nHeads), bias
constant(0., headDim * nHeads, 1);
wf: initLinear(headDim * nHeads, modelDim), bias
constant(0., headDim * nHeads, 1). -/
def vitInit (modelDim headDim mlpDim nHeads : ℕ) (tn : ℕ → ℕ → ℕ → ℝ) : RawVit :=
  { w1 := { initLinear (tn 0) modelDim mlpDim with
      bLen := mlpDim, bEnt := fun _ => 0 }
  , w2 := { initLinear (tn 1) mlpDim modelDim with
      bLen := modelDim, bEnt := fun _ => 0 }
  , wq := { initLinear (tn 2) modelDim (headDim * nHeads) with
      bLen := headDim * nHeads, bEnt := fun _ => 0 }
  , wk := { initLinear (tn 3) modelDim (headDim * nHeads) with
      bLen := headDim * nHeads, bEnt := fun _ => 0 }
  , wv := { initLinear (tn 4) modelDim (headDim * nHeads) with
      bLen := headDim * nHeads, bEnt := fun _ => 0 }
  , wf := { initLinear (tn 5) (headDim * nHeads) modelDim with
      bLen := headDim * nHeads, bEnt := fun _ => 0 } }

/-- The twelve checkpoint files read by
VisionTransformer::VisionTransformer(const std::string& prefix), each as
the float contents of the named file; none stands for a file that does not
exist. -/
structure CkptFiles where
  fc1w : Option (List ℝ)
  fc1b : Option (List ℝ)
  fc2w : Option (List ℝ)
  fc2b : Option (List ℝ)
  qkvw : Option (List ℝ)
  qkvb : Option (List ℝ)
  projw : Option (List ℝ)
  projb : Option (List ℝ)
  n1w : Option (List ℝ)
  n1b : Option (List ℝ)
  n2w : Option (List ℝ)
  n2b : Option (List ℝ)

/-- readfloats: returns the float contents of the file, or an empty vector
when the file cannot be opened. -/
def readfloats (f : Option (List ℝ)) : List ℝ := f.getD []

/-- Entry (i, j) of the two-dimensional af::array(r, c, data.data()): data is
consumed in ArrayFire's column-major order, so element (i, j) is data's
element i + r * j.  Indices are plain naturals; out-of-range access yields
the default 0. -/
def afArray2 (r : ℕ) (d : List ℝ) : ℕ → ℕ → ℝ :=
  fun i j => d.getD (i + r * j) 0

/-- Entry i of the one-dimensional af::array(n, data.data()). -/
def afArray1 (d : List ℝ) : ℕ → ℝ := fun i => d.getD i 0

/-- The row slice arr(af::seq(lo, hi), af::span): row i of the slice is row
lo + i of the array. -/
def afSeqRows (lo : ℕ) (a : ℕ → ℕ → ℝ) : ℕ → ℕ → ℝ := fun i j => a (lo + i) j

/-- The element slice arr(af::seq(lo, hi)) of a one-dimensional array. -/
def afSeq1 (lo : ℕ) (a : ℕ → ℝ) : ℕ → ℝ := fun i => a (lo + i)

/-- The block the checkpoint-loading constructor produces when every size
check passes (the C++ body after all throws, plus the member-initializer
list modelDim_(768), headDim_(768/12), mlpDim_(768*4), nHeads_(12),
pDropout_(0.), pLayerdrop_(0.)).  The fused 2304 x 768 QKV weight array is
sliced into the row blocks seq(0, 767), seq(768, 2*768-1),
seq(2*768, 3*768-1) for wq, wk, wv, and the 2304 bias entries into the same
three segments.  train is the Module default (eval). -/
def mkLoaded (f : CkptFiles) : VitBlock 768 64 12 3072 :=
  { w1W := fun i j => afArray2 3072 (readfloats f.fc1w) i j
  , w1B := fun i => afArray1 (readfloats f.fc1b) i
  , w2W := fun i j => afArray2 768 (readfloats f.fc2w) i j
  , w2B := fun i => afArray1 (readfloats f.fc2b) i
  , wqW := fun i j => afSeqRows 0 (afArray2 2304 (readfloats f.qkvw)) i j
  , wqB := fun i => afSeq1 0 (afArray1 (readfloats f.qkvb)) i
  , wkW := fun i j => afSeqRows 768 (afArray2 2304 (readfloats f.qkvw)) i j
  , wkB := fun i => afSeq1 768 (afArray1 (readfloats f.qkvb)) i
  , wvW := fun i j => afSeqRows (2 * 768) (afArray2 2304 (readfloats f.qkvw)) i j
  , wvB := fun i => afSeq1 (2 * 768) (afArray1 (readfloats f.qkvb)) i
  , wfW := fun i j => afArray2 768 (readfloats f.projw) i j
  , wfB := fun i => afArray1 (readfloats f.projb) i
  , n1W := fun i => afArray1 (readfloats f.n1w) i
  , n1B := fun i => afArray1 (readfloats f.n1b) i
  , n2W := fun i => afArray1 (readfloats f.n2w) i
  , n2B := fun i => afArray1 (readfloats f.n2b) i
  , pDropout := 0
  , pLayerdrop := 0
  , train := false }

/-- VisionTransformer::VisionTransformer(const std::string& prefix): each
file is read in source order and its element count checked against the
fixed-architecture expectation; the first mismatch throws
std::runtime_error carrying that file's name suffix. -/
def vitLoad (f : CkptFiles) : Except String (VitBlock 768 64 12 3072) :=
  if (readfloats f.fc1w).length ≠ 768 * 3072 then Except.error ".mlp.fc1.weight.bin"
  else if (readfloats f.fc1b).length ≠ 3072 then Except.error ".mlp.fc1.bias.bin"
  else if (readfloats f.fc2w).length ≠ 768 * 3072 then Except.error ".mlp.fc2.weight.bin"
  else if (readfloats f.fc2b).length ≠ 768 then Except.error ".mlp.fc2.bias.bin"
  else if (readfloats f.qkvw).length ≠ 768 * 2304 then Except.error ".attn.qkv.weight.bin"
  else if (readfloats f.qkvb).length ≠ 2304 then Except.error ".attn.qkv.bias.bin"
  else if (readfloats f.projw).length ≠ 768 * 768 then Except.error ".attn.proj.weight.bin"
  else if (readfloats f.projb).length ≠ 768 then Except.error ".attn.proj.bias.bin"
  else if (readfloats f.n1w).length ≠ 768 then Except.error ".norm1.weight.bin"
  else if (readfloats f.n1b).length ≠ 768 then Except.error ".norm1.bias.bin"
  else if (readfloats f.n2w).length ≠ 768 then Except.error ".norm2.weight.bin"
  else if (readfloats f.n2b).length ≠ 768 then Except.error ".norm2.bias.bin"
  else Except.ok (mkLoaded f)

/-- The name of the first checkpoint file whose element count fails its
check, in the order the constructor reads them; none when every check
passes. -/
def firstBad (f : CkptFiles) : Option String :=
  if (readfloats f.fc1w).length ≠ 768 * 3072 then some ".mlp.fc1.weight.bin"
  else if (readfloats f.fc1b).length ≠ 3072 then some ".mlp.fc1.bias.bin"
  else if (readfloats f.fc2w).length ≠ 768 * 3072 then some ".mlp.fc2.weight.bin"
  else if (readfloats f.fc2b).length ≠ 768 then some ".mlp.fc2.bias.bin"
  else if (readfloats f.qkvw).length ≠ 768 * 2304 then some ".attn.qkv.weight.bin"
  else if (readfloats f.qkvb).length ≠ 2304 then some ".attn.qkv.bias.bin"
  else if (readfloats f.projw).length ≠ 768 * 768 then some ".attn.proj.weight.bin"
  else if (readfloats f.projb).length ≠ 768 then some ".attn.proj.bias.bin"
  else if (readfloats f.n1w).length ≠ 768 then some ".norm1.weight.bin"
  else if (readfloats f.n1b).length ≠ 768 then some ".norm1.bias.bin"
  else if (readfloats f.n2w).length ≠ 768 then some ".norm2.weight.bin"
  else if (readfloats f.n2b).length ≠ 768 then some ".norm2.bias.bin"
  else none

/-- Every checkpoint file's element count matches the fixed-architecture
expectation. -/
def countsOk (f : CkptFiles) : Prop :=
  (readfloats f.fc1w).length = 768 * 3072 ∧
  (readfloats f.fc1b).length = 3072 ∧
  (readfloats f.fc2w).length = 768 * 3072 ∧
  (readfloats f.fc2b).length = 768 ∧
  (readfloats f.qkvw).length = 768 * 2304 ∧
  (readfloats f.qkvb).length = 2304 ∧
  (readfloats f.projw).length = 768 * 768 ∧
  (readfloats f.projb).length = 768 ∧
  (readfloats f.n1w).length = 768 ∧
  (readfloats f.n1b).length = 768 ∧
  (readfloats f.n2w).length = 768 ∧
  (readfloats f.n2b).length = 768

/-- Scalar of the float-semantics model used to analyse the division in
dropPath: some q is a finite float value (arithmetic taken exact, with
rationals standing in for the finite floats), none is a non-finite value
(NaN or an infinity).  IEEE 754 makes 0.0f / 0.0f a NaN and x * NaN a NaN,
which the real-number embedding cannot express. -/
def FP : Type := Option ℚ

/-- Float multiplication in the non-finite-aware model: any non-finite
operand makes the product non-finite (finite * NaN = NaN; a product with
an infinity is an infinity or NaN). -/
def fpMul : FP → FP → FP
  | some a, some b => some (a * b)
  | _, _ => none

/-- Float division in the non-finite-aware model: division by zero is
non-finite (0/0 = NaN, x/0 = an infinity), and non-finite operands
propagate. -/
def fpDiv : FP → FP → FP
  | some a, some b => if b = 0 then none else some (a / b)
  | _, _ => none

/-- Tensor of float-model scalars. -/
def TenQ (c t b : ℕ) : Type := Fin c → Fin t → Fin b → FP

/-- The empirical keep ratio dropPath computes in train mode:
mean(keepMask) with keepMask = (randu(1,1,B) > pLayerdrop_) as 0/1
values. -/
def dpKeepRatio {b : ℕ} (p : ℚ) (u : Fin b → ℚ) : ℚ :=
  (∑ q, (if p < u q then (1 : ℚ) else 0)) / b

/-- VisionTransformer::dropPath under the float-semantics model: identical
control flow to dropPath, with the division keepMask / keepRatio and the
final multiplication taken in the non-finite-aware scalar model. -/
def dropPathFP {c t b : ℕ} (train : Bool) (p : ℚ) (u : Fin b → ℚ)
    (x : TenQ c t b) : TenQ c t b :=
  if train = false then x
  else
    let keepMask : Fin b → ℚ := fun q => if p < u q then 1 else 0
    let keepRatio : ℚ := (∑ q, keepMask q) / b
    fun i j k => fpMul (x i j k) (fpDiv (some (keepMask k)) (some keepRatio))

/-- Checkpoint contents in which every file exists and has exactly the
expected element count (all entries 0). -/
def fGood : CkptFiles :=
  { fc1w := some (List.replicate (768 * 3072) 0)
  , fc1b := some (List.replicate 3072 0)
  , fc2w := some (List.replicate (768 * 3072) 0)
  , fc2b := some (List.replicate 768 0)
  , qkvw := some (List.replicate (768 * 2304) 0)
  , qkvb := some (List.replicate 2304 0)
  , projw := some (List.replicate (768 * 768) 0)
  , projb := some (List.replicate 768 0)
  , n1w := some (List.replicate 768 0)
  , n1b := some (List.replicate 768 0)
  , n2w := some (List.replicate 768 0)
  , n2b := some (List.replicate 768 0) }

/-- Checkpoint contents in which no file exists. -/
def fNone : CkptFiles :=
  { fc1w := none, fc1b := none, fc2w := none, fc2b := none
  , qkvw := none, qkvb := none, projw := none, projb := none
  , n1w := none, n1b := none, n2w := none, n2b := none }

/-- A concrete block with the smallest dimensions, zero parameters and the
train flag off, used to instantiate evaluation-mode theorems. -/
def blk0 : VitBlock 1 1 1 1 :=
  { w1W := fun _ _ => 0, w1B := fun _ => 0
  , w2W := fun _ _ => 0, w2B := fun _ => 0
  , wqW := fun _ _ => 0, wqB := fun _ => 0
  , wkW := fun _ _ => 0, wkB := fun _ => 0
  , wvW := fun _ _ => 0, wvB := fun _ => 0
  , wfW := fun _ _ => 0, wfB := fun _ => 0
  , n1W := fun _ => 1, n1B := fun _ => 0
  , n2W := fun _ => 1, n2B := fun _ => 0
  , pDropout := 1/2
  , pLayerdrop := 1/2
  , train := false }

/-- One concrete draw of forward-call randomness (all uniforms 0). -/
def randA : VitRand 1 1 1 1 :=
  { dp1 := fun _ => 0, dp2 := fun _ => 0
  , sa := fun _ _ _ => 0, m1 := fun _ _ _ => 0, m2 := fun _ _ _ => 0 }

/-- A different concrete draw of forward-call randomness (all uniforms
9/10). -/
def randB : VitRand 1 1 1 1 :=
  { dp1 := fun _ => 9/10, dp2 := fun _ => 9/10
  , sa := fun _ _ _ => 9/10, m1 := fun _ _ _ => 9/10, m2 := fun _ _ _ => 9/10 }

/-- A concrete single-position input tensor. -/
def x0 : Ten3 1 1 1 := fun _ _ _ => 3

/-- A concrete input tensor for the loaded 768-dimensional block. -/
def xLoaded : Ten3 768 1 1 := fun _ _ _ => 0

/-- A concrete mask for the first mlp dropout of the loaded block. -/
def mLoaded1 : Ten3 3072 1 1 := fun _ _ _ => 0

/-- A concrete mask for the second mlp dropout (and the self-attention
dropout) of the loaded block. -/
def mLoaded2 : Ten3 768 1 1 := fun _ _ _ => 0

/-- A concrete all-finite float-model input tensor. -/
def xQ : TenQ 1 1 1 := fun _ _ _ => some 1

/-- Reference composition expressing "the dropout applications are no-ops":
mlp with its two dropout applications removed (expand, gelu, contract). -/
def mlpNoDropout {C hd nh mlpD : ℕ} (blk : VitBlock C hd nh mlpD) {t b : ℕ}
    (x : Ten3 C t b) : Ten3 C t b :=
  linearF blk.w2W blk.w2B (gelu (linearF blk.w1W blk.w1B x))

set_option maxHeartbeats 2000000 in
theorem vitLoad_eq (f : CkptFiles) :
    vitLoad f = (match firstBad f with
      | some nm => Except.error nm
      | none => Except.ok (mkLoaded f)) := by
  unfold vitLoad firstBad
  by_cases h1 : (readfloats f.fc1w).length ≠ 768 * 3072
  · rw [if_pos h1, if_pos h1]
  rw [if_neg h1, if_neg h1]
  by_cases h2 : (readfloats f.fc1b).length ≠ 3072
  · rw [if_pos h2, if_pos h2]
  rw [if_neg h2, if_neg h2]
  by_cases h3 : (readfloats f.fc2w).length ≠ 768 * 3072
  · rw [if_pos h3, if_pos h3]
  rw [if_neg h3, if_neg h3]
  by_cases h4 : (readfloats f.fc2b).length ≠ 768
  · rw [if_pos h4, if_pos h4]
  rw [if_neg h4, if_neg h4]
  by_cases h5 : (readfloats f.qkvw).length ≠ 768 * 2304
  · rw [if_pos h5, if_pos h5]
  rw [if_neg h5, if_neg h5]
  by_cases h6 : (readfloats f.qkvb).length ≠ 2304
  · rw [if_pos h6, if_pos h6]
  rw [if_neg h6, if_neg h6]
  by_cases h7 : (readfloats f.projw).length ≠ 768 * 768
  · rw [if_pos h7, if_pos h7]
  rw [if_neg h7, if_neg h7]
  by_cases h8 : (readfloats f.projb).length ≠ 768
  · rw [if_pos h8, if_pos h8]
  rw [if_neg h8, if_neg h8]
  by_cases h9 : (readfloats f.n1w).length ≠ 768
  · rw [if_pos h9, if_pos h9]
  rw [if_neg h9, if_neg h9]
  by_cases h10 : (readfloats f.n1b).length ≠ 768
  · rw [if_pos h10, if_pos h10]
  rw [if_neg h10, if_neg h10]
  by_cases h11 : (readfloats f.n2w).length ≠ 768
  · rw [if_pos h11, if_pos h11]
  rw [if_neg h11, if_neg h11]
  by_cases h12 : (readfloats f.n2b).length ≠ 768
  · rw [if_pos h12, if_pos h12]
  rw [if_neg h12, if_neg h12]

set_option maxHeartbeats 2000000 in
theorem firstBad_none_iff (f : CkptFiles) : firstBad f = none ↔ countsOk f := by
  unfold firstBad countsOk
  by_cases h1 : (readfloats f.fc1w).length ≠ 768 * 3072
  · rw [if_pos h1]
    exact iff_of_false (by simp) (fun hc => absurd hc.1 h1)
  rw [if_neg h1]
  by_cases h2 : (readfloats f.fc1b).length ≠ 3072
  · rw [if_pos h2]
    exact iff_of_false (by simp) (fun hc => absurd hc.2.1 h2)
  rw [if_neg h2]
  by_cases h3 : (readfloats f.fc2w).length ≠ 768 * 3072
  · rw [if_pos h3]
    exact iff_of_false (by simp) (fun hc => absurd hc.2.2.1 h3)
  rw [if_neg h3]
  by_cases h4 : (readfloats f.fc2b).length ≠ 768
  · rw [if_pos h4]
    exact iff_of_false (by simp) (fun hc => absurd hc.2.2.2.1 h4)
  rw [if_neg h4]
  by_cases h5 : (readfloats f.qkvw).length ≠ 768 * 2304
  · rw [if_pos h5]
    exact iff_of_false (by simp) (fun hc => absurd hc.2.2.2.2.1 h5)
  rw [if_neg h5]
  by_cases h6 : (readfloats f.qkvb).length ≠ 2304
  · rw [if_pos h6]
    exact iff_of_false (by simp) (fun hc => absurd hc.2.2.2.2.2.1 h6)
  rw [if_neg h6]
  by_cases h7 : (readfloats f.projw).length ≠ 768 * 768
  · rw [if_pos h7]
    exact iff_of_false (by simp) (fun hc => absurd hc.2.2.2.2.2.2.1 h7)
  rw [if_neg h7]
  by_cases h8 : (readfloats f.projb).length ≠ 768
  · rw [if_pos h8]
    exact iff_of_false (by simp) (fun hc => absurd hc.2.2.2.2.2.2.2.1 h8)
  rw [if_neg h8]
  by_cases h9 : (readfloats f.n1w).length ≠ 768
  · rw [if_pos h9]
    exact iff_of_false (by simp) (fun hc => absurd hc.2.2.2.2.2.2.2.2.1 h9)
  rw [if_neg h9]
  by_cases h10 : (readfloats f.n1b).length ≠ 768
  · rw [if_pos h10]
    exact iff_of_false (by simp) (fun hc => absurd hc.2.2.2.2.2.2.2.2.2.1 h10)
  rw [if_neg h10]
  by_cases h11 : (readfloats f.n2w).length ≠ 768
  · rw [if_pos h11]
    exact iff_of_false (by simp) (fun hc => absurd hc.2.2.2.2.2.2.2.2.2.2.1 h11)
  rw [if_neg h11]
  by_cases h12 : (readfloats f.n2b).length ≠ 768
  · rw [if_pos h12]
    exact iff_of_false (by simp) (fun hc => absurd hc.2.2.2.2.2.2.2.2.2.2.2 h12)
  rw [if_neg h12]
  push_neg at h1 h2 h3 h4 h5 h6 h7 h8 h9 h10 h11 h12
  exact iff_of_true rfl ⟨h1, h2, h3, h4, h5, h6, h7, h8, h9, h10, h11, h12⟩

theorem vitLoad_ok_inv (f : CkptFiles) (blk : VitBlock 768 64 12 3072)
    (h : vitLoad f = Except.ok blk) : blk = mkLoaded f := by
  rw [vitLoad_eq] at h
  cases hfb : firstBad f with
  | some nm => rw [hfb] at h; cases h
  | none => rw [hfb] at h; injection h with h1; exact h1.symm

theorem countsOk_fGood : countsOk fGood := by
  unfold countsOk
  refine ⟨?_, ?_, ?_, ?_, ?_, ?_, ?_, ?_, ?_, ?_, ?_, ?_⟩ <;>
    exact List.length_replicate ..

theorem vitLoad_fGood : vitLoad fGood = Except.ok (mkLoaded fGood) := by
  rw [vitLoad_eq]
  have hfb : firstBad fGood = none := (firstBad_none_iff fGood).mpr countsOk_fGood
  rw [hfb]

theorem dropout_zero {c t b : ℕ} (m y : Ten3 c t b) : dropout 0 m y = y := by
  unfold dropout
  rw [if_neg (lt_irrefl 0)]

theorem mlp_dropout_noop {C hd nh mlpD : ℕ} (blk : VitBlock C hd nh mlpD)
    (hp : blk.pDropout = 0) {t b : ℕ} (m1 : Ten3 mlpD t b) (m2 : Ten3 C t b)
    (x : Ten3 C t b) :
    mlp blk m1 m2 x = mlpNoDropout blk x := by
  simp only [mlp, mlpNoDropout, hp, ite_self, dropout_zero]

theorem selfAttention_dropout_noop {C hd nh mlpD : ℕ} (blk : VitBlock C hd nh mlpD)
    (hp : blk.pDropout = 0) {T B : ℕ} (m : Ten3 C T B) (x : Ten3 C T B) :
    selfAttention blk m x = saProjected blk x := by
  simp only [selfAttention, hp, ite_self, dropout_zero]

/-- C1: for every single-tensor input the forward pass computes exactly the
two-stage residual pipeline output = x + dropPath(selfAttention(norm1(x)))
followed by output = output + dropPath(mlp(norm2(output))), and returns the
result as a single-element collection. -/
theorem forward_pipeline {C hd nh mlpD T B : ℕ} (blk : VitBlock C hd nh mlpD)
    (r : VitRand C mlpD T B) (x : Ten3 C T B) :
    vitForward blk r [x] =
      Except.ok
        [tAdd
          (tAdd x (dropPath blk.train blk.pLayerdrop r.dp1
            (selfAttention blk r.sa (layerNorm blk.n1W blk.n1B x))))
          (dropPath blk.train blk.pLayerdrop r.dp2
            (mlp blk r.m1 r.m2 (layerNorm blk.n2W blk.n2B
              (tAdd x (dropPath blk.train blk.pLayerdrop r.dp1
                (selfAttention blk r.sa (layerNorm blk.n1W blk.n1B x)))))))] := rfl

/-- C2: whenever checkpoint loading succeeds, the query, key and value
projection weights are exactly the first, second and third 768-row blocks
of the stored 2304 x 768 fused QKV weight array, and their biases the
corresponding three length-768 segments of the stored 2304-element bias. -/
theorem qkv_split (f : CkptFiles) (blk : VitBlock 768 64 12 3072)
    (h : vitLoad f = Except.ok blk) (i : Fin (64 * 12)) (j : Fin 768) :
    blk.wqW i j = afArray2 2304 (readfloats f.qkvw) i.val j.val ∧
    blk.wkW i j = afArray2 2304 (readfloats f.qkvw) (768 + i.val) j.val ∧
    blk.wvW i j = afArray2 2304 (readfloats f.qkvw) (2 * 768 + i.val) j.val ∧
    blk.wqB i = afArray1 (readfloats f.qkvb) i.val ∧
    blk.wkB i = afArray1 (readfloats f.qkvb) (768 + i.val) ∧
    blk.wvB i = afArray1 (readfloats f.qkvb) (2 * 768 + i.val) := by
  have hb := vitLoad_ok_inv f blk h
  subst hb
  refine ⟨?_, rfl, rfl, ?_, rfl, rfl⟩ <;>
    simp [mkLoaded, afSeqRows, afSeq1]

/-- Witness for qkv_split: concrete well-sized checkpoint contents load
successfully and the first entry of wq is entry (0, 0) of the stored
array. -/
theorem qkv_split_witness :
    vitLoad fGood = Except.ok (mkLoaded fGood) ∧
    (mkLoaded fGood).wqW ⟨0, by norm_num⟩ ⟨0, by norm_num⟩ =
      afArray2 2304 (readfloats fGood.qkvw) 0 0 :=
  ⟨vitLoad_fGood,
    (qkv_split fGood (mkLoaded fGood) vitLoad_fGood ⟨0, by norm_num⟩
      ⟨0, by norm_num⟩).1⟩

/-- C3: checkpoint loading succeeds exactly when every file's float element
count matches the fixed-architecture expectation; a mismatch raises an
error naming the first offending file; and a file that does not exist
(whose read yields zero elements) likewise makes loading fail with a named
error rather than being silently truncated or padded. -/
theorem load_validation (f : CkptFiles) :
    ((∃ blk, vitLoad f = Except.ok blk) ↔ countsOk f) ∧
    (∀ nm, firstBad f = some nm → vitLoad f = Except.error nm) ∧
    ((f.fc1w = none ∨ f.fc1b = none ∨ f.fc2w = none ∨ f.fc2b = none ∨
      f.qkvw = none ∨ f.qkvb = none ∨ f.projw = none ∨ f.projb = none ∨
      f.n1w = none ∨ f.n1b = none ∨ f.n2w = none ∨ f.n2b = none) →
      ∃ nm, vitLoad f = Except.error nm) := by
  refine ⟨?_, ?_, ?_⟩
  · rw [vitLoad_eq]
    cases hfb : firstBad f with
    | some nm =>
        refine iff_of_false ?_ ?_
        · rintro ⟨blk, hb⟩; cases hb
        · intro hc
          have hn := (firstBad_none_iff f).mpr hc
          rw [hfb] at hn
          cases hn
    | none => exact iff_of_true ⟨mkLoaded f, rfl⟩ ((firstBad_none_iff f).mp hfb)
  · intro nm hnm
    rw [vitLoad_eq, hnm]
  · intro hmiss
    have hnc : ¬ countsOk f := by
      intro hc
      unfold countsOk at hc
      rcases hmiss with hm | hm | hm | hm | hm | hm | hm | hm | hm | hm | hm | hm <;>
        simp [hm, readfloats] at hc
    cases hfb : firstBad f with
    | none => exact absurd ((firstBad_none_iff f).mp hfb) hnc
    | some nm => exact ⟨nm, by rw [vitLoad_eq, hfb]⟩

/-- Witness for load_validation: with no file present, loading fails and
names the first file read. -/
theorem load_validation_witness :
    firstBad fNone = some ".mlp.fc1.weight.bin" ∧
    vitLoad fNone = Except.error ".mlp.fc1.weight.bin" := by
  have hfb : firstBad fNone = some ".mlp.fc1.weight.bin" := by
    unfold firstBad fNone readfloats
    simp
  exact ⟨hfb, (load_validation fNone).2.1 ".mlp.fc1.weight.bin" hfb⟩

/-- C4 (code bug): at configuration modelDim = 4, headDim = 2, mlpDim = 8,
nHeads = 3 the randomly-initialized constructor gives wf a weight of shape
(modelDim x headDim * nHeads) = (4 x 6) but a bias of length
headDim * nHeads = 6 instead of the output dimension modelDim = 4: the
bias length does not equal the sub-module's output dimension. -/
theorem init_wf_bias_bug :
    (vitInit 4 2 8 3 (fun _ _ _ => 0)).wf.wRows = 4 ∧
    (vitInit 4 2 8 3 (fun _ _ _ => 0)).wf.wCols = 6 ∧
    (vitInit 4 2 8 3 (fun _ _ _ => 0)).wf.bLen = 6 ∧
    (vitInit 4 2 8 3 (fun _ _ _ => 0)).wf.bLen ≠
      (vitInit 4 2 8 3 (fun _ _ _ => 0)).wf.wRows :=
  ⟨rfl, rfl, rfl, by decide⟩

/-- C5: the attention weights are softmax(scores, 1) -- softmax along axis
index 1, the key axis -- so for every query position i and every head/batch
slice g they sum to 1; no dropout touches the attention weights, the single
dropout application sitting after the output projection. -/
theorem attn_softmax_axis1 {C hd nh mlpD : ℕ} (blk : VitBlock C hd nh mlpD)
    {T B : ℕ} (x : Ten3 C T B) (m : Ten3 C T B) (i : Fin T) (g : Fin (nh * B)) :
    (∑ j, attnWeights blk x i j g) = 1 ∧
    attnWeights blk x = softmaxAxis1 (saScores blk x) ∧
    selfAttention blk m x =
      dropout (if blk.train then blk.pDropout else 0) m (saProjected blk x) := by
  refine ⟨?_, rfl, rfl⟩
  have hpos : 0 < ∑ j', Real.exp (saScores blk x i j' g) :=
    Finset.sum_pos (fun j _ => Real.exp_pos _) ⟨i, Finset.mem_univ i⟩
  unfold attnWeights softmaxAxis1
  rw [← Finset.sum_div]
  exact div_self (ne_of_gt hpos)

/-- C6: gelu is elementwise, computing
0.5 * x * (1 + tanh(sqrt(2/pi) * (x + 0.044715 * x^3))) at every entry, and
on the zero tensor every entry of the result is 0. -/
theorem gelu_formula {c t b : ℕ} (x : Ten3 c t b) (i : Fin c) (j : Fin t)
    (k : Fin b) :
    gelu x i j k =
      0.5 * x i j k *
        (1 + Real.tanh (Real.sqrt (2 / Real.pi) *
          (x i j k + 0.044715 * (x i j k) ^ 3))) ∧
    gelu (fun _ _ _ => 0) i j k = 0 := by
  refine ⟨rfl, ?_⟩
  simp [gelu]

/-- C7: forward raises its arity error exactly when the input collection
does not contain one tensor: it fails for size 0 and for size at least 2,
and never for a single-element collection. -/
theorem forward_arity {C hd nh mlpD T B : ℕ} (blk : VitBlock C hd nh mlpD)
    (r : VitRand C mlpD T B) (inputs : List (Ten3 C T B)) :
    (∃ e, vitForward blk r inputs = Except.error e) ↔ inputs.length ≠ 1 := by
  unfold vitForward
  by_cases h : inputs.length ≠ 1
  · rw [if_pos h]
    exact iff_of_true ⟨_, rfl⟩ h
  · rw [if_neg h]
    exact iff_of_false (by rintro ⟨e, he⟩; cases he) h

/-- C8: with the train flag off, forward is a deterministic function of the
input and the parameters: any two random draws give the same output, since
the dropout probability is forced to 0 and dropPath returns its input
unchanged. -/
theorem eval_determinism {C hd nh mlpD T B : ℕ} (blk : VitBlock C hd nh mlpD)
    (h : blk.train = false) (r r' : VitRand C mlpD T B)
    (inputs : List (Ten3 C T B)) :
    vitForward blk r inputs = vitForward blk r' inputs := by
  have hdp : ∀ {c t b : ℕ} (u : Fin b → ℝ) (y : Ten3 c t b),
      dropPath blk.train blk.pLayerdrop u y = y := by
    intro c t b u y
    unfold dropPath
    rw [h, if_pos rfl]
  have hdo : ∀ {c t b : ℕ} (m y : Ten3 c t b),
      dropout (if blk.train then blk.pDropout else 0) m y = y := by
    intro c t b m y
    rw [h, if_neg Bool.false_ne_true]
    exact dropout_zero m y
  simp only [vitForward, selfAttention, mlp, hdp, hdo]

/-- Witness for eval_determinism: the concrete evaluation-mode block blk0
gives the same forward output under the two distinct draws randA and
randB. -/
theorem eval_determinism_witness :
    blk0.train = false ∧ vitForward blk0 randA [x0] = vitForward blk0 randB [x0] :=
  ⟨rfl, eval_determinism blk0 rfl randA randB [x0]⟩

/-- C9: a checkpoint-loaded block has dropout probability 0 and drop-path
probability 0 hard-coded, so even with the train flag forced on, the
dropout applications inside mlp and selfAttention are no-ops: both equal
their dropout-free compositions. -/
theorem loaded_dropout_noop (f : CkptFiles) (blk : VitBlock 768 64 12 3072)
    (h : vitLoad f = Except.ok blk) :
    blk.pDropout = 0 ∧ blk.pLayerdrop = 0 ∧
    (∀ (t b : ℕ) (m1 : Ten3 3072 t b) (m2 : Ten3 768 t b) (x : Ten3 768 t b),
      mlp { blk with train := true } m1 m2 x =
        mlpNoDropout { blk with train := true } x) ∧
    (∀ (t b : ℕ) (m : Ten3 768 t b) (x : Ten3 768 t b),
      selfAttention { blk with train := true } m x =
        saProjected { blk with train := true } x) := by
  have hb := vitLoad_ok_inv f blk h
  subst hb
  refine ⟨rfl, rfl, ?_, ?_⟩
  · intro t b m1 m2 x
    exact mlp_dropout_noop _ rfl m1 m2 x
  · intro t b m x
    exact selfAttention_dropout_noop _ rfl m x

/-- Witness for loaded_dropout_noop: the concretely loaded block, with the
train flag forced on, runs mlp as the dropout-free composition. -/
theorem loaded_dropout_noop_witness :
    vitLoad fGood = Except.ok (mkLoaded fGood) ∧
    mlp { mkLoaded fGood with train := true } mLoaded1 mLoaded2 xLoaded =
      mlpNoDropout { mkLoaded fGood with train := true } xLoaded :=
  ⟨vitLoad_fGood,
    (loaded_dropout_noop fGood (mkLoaded fGood) vitLoad_fGood).2.2.1
      1 1 mLoaded1 mLoaded2 xLoaded⟩

/-- C10: in train mode with positive drop-path probability there is a
random draw -- every batch element dropped, for instance all uniforms 0 --
for which the empirical keep ratio is 0, the mask normalization divides by
zero, and under float semantics every output entry is non-finite (NaN)
rather than the all-zero tensor the nominal semantics would give. -/
theorem dropPath_div_by_zero {c t b : ℕ} (p : ℚ) (hp : 0 < p)
    (x : TenQ c t b) (i : Fin c) (j : Fin t) (k : Fin b) :
    ∃ u : Fin b → ℚ, (∀ q, 0 ≤ u q ∧ u q < 1) ∧ dpKeepRatio p u = 0 ∧
      dropPathFP true p u x i j k = none ∧
      dropPathFP true p u x i j k ≠ some 0 := by
  have hnone : dropPathFP true p (fun _ => (0 : ℚ)) x i j k = none := by
    cases hx : x i j k with
    | none => simp [dropPathFP, fpDiv, fpMul, if_neg (lt_asymm hp), hx]
    | some a => simp [dropPathFP, fpDiv, fpMul, if_neg (lt_asymm hp), hx]
  refine ⟨fun _ => 0, fun q => ⟨le_refl 0, zero_lt_one⟩, ?_, hnone, ?_⟩
  · unfold dpKeepRatio
    simp [if_neg (lt_asymm hp)]
  · rw [hnone]
    simp

/-- Witness for dropPath_div_by_zero at p = 1/2 on a concrete finite
input. -/
theorem dropPath_div_by_zero_witness :
    (0 : ℚ) < 1/2 ∧
    (∃ u : Fin 1 → ℚ, (∀ q, 0 ≤ u q ∧ u q < 1) ∧ dpKeepRatio (1/2) u = 0 ∧
      dropPathFP true (1/2) u xQ 0 0 0 = none ∧
      dropPathFP true (1/2) u xQ 0 0 0 ≠ some 0) :=
  ⟨by norm_num, dropPath_div_by_zero (1/2) (by norm_num) xQ 0 0 0⟩

end VT
